import Mathlib

/-!
Verification of the local joint submodel geometry synthesizer
(local_model: notch_offset, plate_geometry, link_cluster, plate_sections).

Geometry and thickness arithmetic is embedded over the rationals; the
Local Frame Builder (which normalizes with a square root) is embedded
over the reals.
-/

set_option maxHeartbeats 1000000

/-- A 3-D point with rational coordinates (model length units). -/
abbrev Point3 := ℚ × ℚ × ℚ

/-! ## notch_offset.py : calculate_notch_offset -/

/-- Insertion step for sorting a rational list ascending
 (models the effect of the sorted builtin). -/
def insertSortedQ (x : ℚ) : List ℚ → List ℚ
  | [] => [x]
  | y :: ys => if x ≤ y then x :: y :: ys else y :: insertSortedQ x ys

/-- Ascending insertion sort on rational lists. -/
def sortQ : List ℚ → List ℚ
  | [] => []
  | x :: xs => insertSortedQ x (sortQ xs)

/-- all_thicknesses: beam values with v > 0, then column values with v > 0,
 then the non-null extra values with v > 0 (calculate_notch_offset, lines 62-67). -/
def gather_thicknesses (beam_thk col_thk : List ℚ) (extra_thk : List (Option ℚ)) : List ℚ :=
  beam_thk.filter (fun v => 0 < v) ++ col_thk.filter (fun v => 0 < v) ++
    (extra_thk.filterMap id).filter (fun v => 0 < v)

/-- valid_thicknesses = sorted(list(set(t for t in all_thicknesses if t > 1e-9)))
 (notch_offset.py line 69): duplicates removed, then sorted ascending. -/
def valid_thicknesses (all_thk : List ℚ) : List ℚ :=
  sortQ ((all_thk.filter (fun t => (1e-9 : ℚ) < t)).dedup)

/-- calculate_notch_offset (notch_offset.py lines 53-88): returns 0 when no valid
 thickness remains, else 0.5*mean + 1.5*max + 0.7*min of the valid thicknesses. -/
def calculate_notch_offset (beam_thk col_thk : List ℚ) (extra_thk : List (Option ℚ)) : ℚ :=
  match valid_thicknesses (gather_thicknesses beam_thk col_thk extra_thk) with
  | [] => 0
  | t0 :: rest =>
      let t := rest.foldl max t0
      let tmin := rest.foldl min t0
      let t1 := (t0 :: rest).sum / ((t0 :: rest).length : ℚ)
      (0.5 : ℚ) * t1 + (1.5 : ℚ) * t + (0.7 : ℚ) * tmin

/-! ## plate_geometry.py : _calculate_centroid_distances -/

/-- _calculate_centroid_distances (plate_geometry.py lines 56-69): area-weighted
 centroid of the three-rectangle I-section; returns (distance to top extreme
 fiber, distance to bottom extreme fiber), with the (D/2, D/2) fallback when
 the total area is zero. -/
def _calculate_centroid_distances (D B1 tf1 B2 tf2 tw : ℚ) : ℚ × ℚ :=
  let A1 := B1 * tf1
  let y1 := tf1 / 2
  let hw := D - tf1 - tf2
  let Aw := hw * tw
  let yw := tf1 + hw / 2
  let A2 := B2 * tf2
  let y2 := D - tf2 / 2
  let Atot := A1 + Aw + A2
  if Atot = 0 then (D / 2, D / 2)
  else
    let yc := (A1 * y1 + Aw * yw + A2 * y2) / Atot
    (D - yc, yc)

/-- The total three-rectangle area Atot = A1 + Aw + A2 computed inside
 _calculate_centroid_distances (plate_geometry.py lines 61-64). -/
def total_section_area (D B1 tf1 B2 tf2 tw : ℚ) : ℚ :=
  B1 * tf1 + (D - tf1 - tf2) * tw + B2 * tf2

/-- Shared helper: the two centroid distances always sum to D. -/
lemma centroid_distances_sum (D B1 tf1 B2 tf2 tw : ℚ) :
    (_calculate_centroid_distances D B1 tf1 B2 tf2 tw).1 +
      (_calculate_centroid_distances D B1 tf1 B2 tf2 tw).2 = D := by
  simp only [_calculate_centroid_distances]
  split
  · norm_num
  · simp only
    ring

/-- C6: for every section input, on both computation paths (zero-area fallback
 and the genuine area-weighted path), the two distances returned by the Section
 Centroid Resolver sum to D. -/
theorem C6_centroid_sum (D B1 tf1 B2 tf2 tw : ℚ) :
    (_calculate_centroid_distances D B1 tf1 B2 tf2 tw).1 +
      (_calculate_centroid_distances D B1 tf1 B2 tf2 tw).2 = D :=
  centroid_distances_sum D B1 tf1 B2 tf2 tw

/-- C7: the Section Centroid Resolver returns exactly (D/2, D/2) for every
 doubly symmetric section (tf1 = tf2 and B1 = B2), and also for every
 degenerate input whose total three-rectangle area is zero. -/
theorem C7_symmetric_centroid (D B1 tf1 B2 tf2 tw : ℚ)
    (h : (tf1 = tf2 ∧ B1 = B2) ∨ total_section_area D B1 tf1 B2 tf2 tw = 0) :
    _calculate_centroid_distances D B1 tf1 B2 tf2 tw = (D / 2, D / 2) := by
  simp only [_calculate_centroid_distances]
  rcases h with ⟨htf, hB⟩ | hA
  · subst htf; subst hB
    split
    · rfl
    · rename_i hAtot
      have h2 : B1 * tf1 + (D - tf1 - tf1) * tw + B1 * tf1 ≠ 0 := hAtot
      have hyc : (B1 * tf1 * (tf1 / 2) + (D - tf1 - tf1) * tw * (tf1 + (D - tf1 - tf1) / 2) +
          B1 * tf1 * (D - tf1 / 2)) / (B1 * tf1 + (D - tf1 - tf1) * tw + B1 * tf1) = D / 2 := by
        rw [div_eq_iff h2]; ring
      rw [hyc]
      simp only [Prod.mk.injEq]
      constructor
      · ring
      · trivial
  · have hz : B1 * tf1 + (D - tf1 - tf2) * tw + B2 * tf2 = 0 := hA
    rw [if_pos (by linarith)]

/-- Witness for C7 at the doubly symmetric section
 D=300, B1=B2=150, tf1=tf2=10, tw=7. -/
theorem C7_symmetric_centroid_witness :
    _calculate_centroid_distances 300 150 10 150 10 7 = ((300 : ℚ) / 2, (300 : ℚ) / 2) :=
  C7_symmetric_centroid 300 150 10 150 10 7 (Or.inl ⟨rfl, rfl⟩)

/-- Shared helper: evaluation of the thickness pipeline on the multiset
 {7, 10, 10}: deduplication leaves [7, 10]. -/
lemma valid_thicknesses_ex :
    valid_thicknesses (gather_thicknesses [7, 10] [10] []) = [7, 10] := by
  norm_num [gather_thicknesses, valid_thicknesses, List.filter_cons,
    List.dedup_cons_of_mem, List.dedup_cons_of_not_mem, sortQ, insertSortedQ]

/-- C1 counterexample: for the thickness multiset {7,10,10} the code returns
 24.15, not 24.4, because duplicate thicknesses are removed before averaging. -/
theorem C1_counterexample :
    ¬ (calculate_notch_offset [7, 10] [10] [] = (24.4 : ℚ)) := by
  rw [calculate_notch_offset, valid_thicknesses_ex]
  norm_num [List.foldl]

/-- C1 amended: the mean in the notch-offset formula is taken over the
 distinct valid thicknesses; for the multiset {7,10,10} the distinct set is
 {7,10}, so the target size is 0.5*8.5 + 1.5*10 + 0.7*7 = 24.15. -/
theorem C1_notch_offset_dedup :
    calculate_notch_offset [7, 10] [10] [] = (24.15 : ℚ) ∧
      (24.15 : ℚ) = (0.5 : ℚ) * ((7 + 10) / 2) + (1.5 : ℚ) * 10 + (0.7 : ℚ) * 7 := by
  constructor
  · rw [calculate_notch_offset, valid_thicknesses_ex]
    norm_num [List.foldl]
  · norm_num

/-! ## plate_geometry.py : _six_nodes_from_centroid_axes and replication -/

/-- The three coordinate axes, the keys of _AXIS_IDX (plate_geometry.py line 54). -/
inductive Axis
  | x
  | y
  | z
deriving DecidableEq

/-- Reading the coordinate selected by _AXIS_IDX (list indexing p[idx]). -/
def coordAt (p : Point3) : Axis → ℚ
  | Axis.x => p.1
  | Axis.y => p.2.1
  | Axis.z => p.2.2

/-- Writing the coordinate selected by _AXIS_IDX (list assignment p[idx] = v). -/
def setCoordAt (p : Point3) (a : Axis) (v : ℚ) : Point3 :=
  match a with
  | Axis.x => (v, p.2.1, p.2.2)
  | Axis.y => (p.1, v, p.2.2)
  | Axis.z => (p.1, p.2.1, v)

/-- _six_nodes_from_centroid_axes (plate_geometry.py lines 71-85): the six
 mid-plane key positions of an I-section at an anchor, as the ordered
 label-to-point dictionary built by the source. -/
def _six_nodes_from_centroid_axes (x0 y0 z0 : ℚ) (depth_axis width_axis : Axis)
    (dist_c_to_ext_top dist_c_to_ext_bot tf1 tf2 B1 B2 : ℚ) : List (String × Point3) :=
  let p : Point3 := (x0, y0, z0)
  let d_bot := coordAt p depth_axis - (dist_c_to_ext_bot - tf1 / 2)
  let d_top := coordAt p depth_axis + (dist_c_to_ext_top - tf2 / 2)
  let w_top := B2 / 2
  let w_bot := B1 / 2
  let wb := setCoordAt p depth_axis d_bot
  let wt := setCoordAt p depth_axis d_top
  let tl := setCoordAt wt width_axis (coordAt wt width_axis - w_top)
  let tr := setCoordAt wt width_axis (coordAt wt width_axis + w_top)
  let bl := setCoordAt wb width_axis (coordAt wb width_axis - w_bot)
  let br := setCoordAt wb width_axis (coordAt wb width_axis + w_bot)
  [("web_bot", wb), ("web_top", wt), ("top_left", tl),
   ("top_right", tr), ("bot_left", bl), ("bot_right", br)]

/-- _copy_points_set_along_Y (plate_geometry.py lines 87-90): copy of a labeled
 point dictionary with the Y coordinate overridden. -/
def _copy_points_set_along_Y (pts : List (String × Point3)) (y_target : ℚ) :
    List (String × Point3) :=
  pts.map (fun kp => (kp.1, (kp.2.1, y_target, kp.2.2.2)))

/-- _copy_points_set_along_X (plate_geometry.py lines 92-95): copy of a labeled
 point dictionary with the X coordinate overridden. -/
def _copy_points_set_along_X (pts : List (String × Point3)) (x_target : ℚ) :
    List (String × Point3) :=
  pts.map (fun kp => (kp.1, (x_target, kp.2.2.1, kp.2.2.2)))

/-- Shared helper: reading after writing a coordinate. -/
lemma coordAt_setCoordAt (p : Point3) (a b : Axis) (v : ℚ) :
    coordAt (setCoordAt p a v) b = if b = a then v else coordAt p b := by
  cases a <;> cases b <;> simp [coordAt, setCoordAt]

/-- C4: for every anchor and section input, the Midplane Node Generator places
 web_bot and web_top at the anchor shifted along the depth axis by
 -(bottom offset - tf1/2) and +(top offset - tf2/2), top_left/top_right at
 web_top shifted along the width axis by -B2/2 and +B2/2, bot_left/bot_right at
 web_bot shifted by -B1/2 and +B1/2, all other coordinates unchanged, and the
 vertical extent of the template equals D - tf1/2 - tf2/2. -/
theorem C4_six_node_positions (x0 y0 z0 : ℚ) (d w : Axis) (D B1 tf1 B2 tf2 tw : ℚ) :
    ∃ wb wt tl tr bl br : Point3,
      _six_nodes_from_centroid_axes x0 y0 z0 d w
          (_calculate_centroid_distances D B1 tf1 B2 tf2 tw).1
          (_calculate_centroid_distances D B1 tf1 B2 tf2 tw).2 tf1 tf2 B1 B2 =
        [("web_bot", wb), ("web_top", wt), ("top_left", tl),
         ("top_right", tr), ("bot_left", bl), ("bot_right", br)] ∧
      (∀ a : Axis, coordAt wb a =
        if a = d then
          coordAt (x0, y0, z0) a -
            ((_calculate_centroid_distances D B1 tf1 B2 tf2 tw).2 - tf1 / 2)
        else coordAt (x0, y0, z0) a) ∧
      (∀ a : Axis, coordAt wt a =
        if a = d then
          coordAt (x0, y0, z0) a +
            ((_calculate_centroid_distances D B1 tf1 B2 tf2 tw).1 - tf2 / 2)
        else coordAt (x0, y0, z0) a) ∧
      (∀ a : Axis, coordAt tl a = if a = w then coordAt wt a - B2 / 2 else coordAt wt a) ∧
      (∀ a : Axis, coordAt tr a = if a = w then coordAt wt a + B2 / 2 else coordAt wt a) ∧
      (∀ a : Axis, coordAt bl a = if a = w then coordAt wb a - B1 / 2 else coordAt wb a) ∧
      (∀ a : Axis, coordAt br a = if a = w then coordAt wb a + B1 / 2 else coordAt wb a) ∧
      coordAt wt d - coordAt wb d = D - tf1 / 2 - tf2 / 2 := by
  have hsum := centroid_distances_sum D B1 tf1 B2 tf2 tw
  set top := (_calculate_centroid_distances D B1 tf1 B2 tf2 tw).1 with htop
  set bot := (_calculate_centroid_distances D B1 tf1 B2 tf2 tw).2 with hbot
  set p : Point3 := (x0, y0, z0) with hp
  set wb := setCoordAt p d (coordAt p d - (bot - tf1 / 2)) with hwb
  set wt := setCoordAt p d (coordAt p d + (top - tf2 / 2)) with hwt
  refine ⟨wb, wt,
    setCoordAt wt w (coordAt wt w - B2 / 2), setCoordAt wt w (coordAt wt w + B2 / 2),
    setCoordAt wb w (coordAt wb w - B1 / 2), setCoordAt wb w (coordAt wb w + B1 / 2),
    rfl, ?_, ?_, ?_, ?_, ?_, ?_, ?_⟩
  · intro a
    rw [hwb, coordAt_setCoordAt]
    split
    · rename_i h; rw [h]
    · rfl
  · intro a
    rw [hwt, coordAt_setCoordAt]
    split
    · rename_i h; rw [h]
    · rfl
  · intro a
    rw [coordAt_setCoordAt]
    split
    · rename_i h; rw [h]
    · rfl
  · intro a
    rw [coordAt_setCoordAt]
    split
    · rename_i h; rw [h]
    · rfl
  · intro a
    rw [coordAt_setCoordAt]
    split
    · rename_i h; rw [h]
    · rfl
  · intro a
    rw [coordAt_setCoordAt]
    split
    · rename_i h; rw [h]
    · rfl
  · rw [hwb, hwt, coordAt_setCoordAt, coordAt_setCoordAt, if_pos rfl, if_pos rfl]
    linarith

/-- C8: replication along Y (resp. X) preserves the length and the labels of
 the template, sets the Y (resp. X) coordinate of every entry to exactly the
 requested target, and leaves the other two coordinates unchanged. -/
theorem C8_replication (pts : List (String × Point3)) (y_target x_target : ℚ) :
    ((_copy_points_set_along_Y pts y_target).length = pts.length ∧
      ∀ i : ℕ,
        match (_copy_points_set_along_Y pts y_target)[i]?, pts[i]? with
        | some q, some p =>
            q.1 = p.1 ∧ q.2.1 = p.2.1 ∧ q.2.2.1 = y_target ∧ q.2.2.2 = p.2.2.2
        | none, none => True
        | _, _ => False) ∧
    ((_copy_points_set_along_X pts x_target).length = pts.length ∧
      ∀ i : ℕ,
        match (_copy_points_set_along_X pts x_target)[i]?, pts[i]? with
        | some q, some p =>
            q.1 = p.1 ∧ q.2.1 = x_target ∧ q.2.2.1 = p.2.2.1 ∧ q.2.2.2 = p.2.2.2
        | none, none => True
        | _, _ => False) := by
  refine ⟨⟨?_, ?_⟩, ?_, ?_⟩
  · simp [_copy_points_set_along_Y]
  · intro i
    rcases h : pts[i]? with _ | p
    · simp [_copy_points_set_along_Y, List.getElem?_map, h]
    · simp [_copy_points_set_along_Y, List.getElem?_map, h]
  · simp [_copy_points_set_along_X]
  · intro i
    rcases h : pts[i]? with _ | p
    · simp [_copy_points_set_along_X, List.getElem?_map, h]
    · simp [_copy_points_set_along_X, List.getElem?_map, h]

/-! ## plate_geometry.py : create_plates_for_joint -/

/-- The six node ids extracted from one station group in
 create_plates_for_joint (plate_geometry.py lines 267-272):
 web bottom/top, flange corners. -/
structure SixIds where
  wb : ℕ
  wt : ℕ
  tl : ℕ
  tr : ℕ
  bl : ℕ
  br : ℕ
deriving DecidableEq

/-- plates_to_create (plate_geometry.py lines 263-305): the ordered list of
 (property id, 4-node tuple) quad patches for one joint: lower-column segment,
 panel-zone segment, upper-column segment, beam segment, and, only when the
 gusset property is configured, four stiffener patches. -/
def plates_to_create
    (p_beam_w p_beam_f1 p_beam_f2 p_col_w p_col_f1 p_col_f2 p_panel : ℕ)
    (p_gusset : Option ℕ)
    (cib cim cia csb bn bnc : SixIds) : List (ℕ × List ℕ) :=
  ([(p_col_w, [cib.wb, cib.wt, cim.wt, cim.wb]),
    (p_col_f1, [cib.wb, cib.bl, cim.bl, cim.wb]),
    (p_col_f2, [cib.wt, cib.tl, cim.tl, cim.wt]),
    (p_col_f1, [cib.wb, cib.br, cim.br, cim.wb]),
    (p_col_f2, [cib.wt, cib.tr, cim.tr, cim.wt])] ++
   [(p_panel, [cim.wb, cim.wt, cia.wt, cia.wb]),
    (p_col_f1, [cim.wb, cim.bl, cia.bl, cia.wb]),
    (p_col_f2, [cim.wt, cim.tl, cia.tl, cia.wt]),
    (p_col_f1, [cim.wb, cim.br, cia.br, cia.wb]),
    (p_col_f2, [cim.wt, cim.tr, cia.tr, cia.wt])] ++
   [(p_col_w, [cia.wb, cia.wt, csb.wt, csb.wb]),
    (p_col_f1, [cia.wb, cia.bl, csb.bl, csb.wb]),
    (p_col_f2, [cia.wt, cia.tl, csb.tl, csb.wt]),
    (p_col_f1, [cia.wb, cia.br, csb.br, csb.wb]),
    (p_col_f2, [cia.wt, cia.tr, csb.tr, csb.wt])] ++
   [(p_beam_w, [bn.wb, bn.wt, bnc.wt, bnc.wb]),
    (p_beam_f1, [bn.bl, bn.br, bnc.br, bnc.bl]),
    (p_beam_f2, [bn.tl, bn.tr, bnc.tr, bnc.tl])] ++
   (match p_gusset with
    | some g =>
        [(g, [cim.bl, cim.wb, cim.wt, cim.tl]), (g, [cim.wb, cim.br, cim.tr, cim.wt]),
         (g, [cia.bl, cia.wb, cia.wt, cia.tl]), (g, [cia.wb, cia.br, cia.tr, cia.wt])]
    | none => []))

/-- The creation loop of create_plates_for_joint (plate_geometry.py lines
 310-317): tuples whose length is not 4 are skipped, every other entry is
 handed to the element-creation call. -/
def created_plate_list (l : List (ℕ × List ℕ)) : List (ℕ × List ℕ) :=
  l.filter (fun pl => pl.2.length = 4)

/-- C2 counterexample: with the stiffener property configured, the Panel
 Topology Builder emits 22 patches, not (4 segments) * 3 + 4 = 16. -/
theorem C2_counterexample :
    ¬ ((created_plate_list (plates_to_create 1 2 3 4 5 6 7 (some 8)
          ⟨1, 2, 3, 4, 5, 6⟩ ⟨7, 8, 9, 10, 11, 12⟩ ⟨13, 14, 15, 16, 17, 18⟩
          ⟨19, 20, 21, 22, 23, 24⟩ ⟨25, 26, 27, 28, 29, 30⟩
          ⟨31, 32, 33, 34, 35, 36⟩)).length = 4 * 3 + 4) := by
  decide

/-- C2 amended: each of the three column segments (lower column, panel zone,
 upper column) emits 5 patches (one web patch and four half-flange patches)
 and the beam segment emits 3, so the total patch count is 18, plus 4
 additional stiffener patches when the gusset property is configured
 (non-null) and plus 0 (with only a diagnostic print, not a failure) when it
 is not; no emitted tuple is skipped by the 4-node length check. -/
theorem C2_patch_count
    (p_beam_w p_beam_f1 p_beam_f2 p_col_w p_col_f1 p_col_f2 p_panel : ℕ)
    (p_gusset : Option ℕ) (cib cim cia csb bn bnc : SixIds) :
    (created_plate_list (plates_to_create p_beam_w p_beam_f1 p_beam_f2 p_col_w
        p_col_f1 p_col_f2 p_panel p_gusset cib cim cia csb bn bnc)).length =
      3 * 5 + 3 + (match p_gusset with | some _ => 4 | none => 0) ∧
    created_plate_list (plates_to_create p_beam_w p_beam_f1 p_beam_f2 p_col_w
        p_col_f1 p_col_f2 p_panel p_gusset cib cim cia csb bn bnc) =
      plates_to_create p_beam_w p_beam_f1 p_beam_f2 p_col_w
        p_col_f1 p_col_f2 p_panel p_gusset cib cim cia csb bn bnc := by
  cases p_gusset <;> exact ⟨rfl, rfl⟩

/-! ## link_cluster.py : master scans and rigid link clusters -/

/-- One created rigid-link cluster: the slave node and its master set. -/
structure ClusterInfo where
  slave : ℕ
  masters : List ℕ
deriving DecidableEq

/-- _masters_same_y (link_cluster.py lines 40-52): scan node ids 1..tot,
 skip the excluded slave and unreadable nodes, keep node ids whose Y
 coordinate is within tol of y_ref. -/
def _masters_same_y (tot : ℕ) (nodes : ℕ → Option Point3) (y_ref : ℚ)
    (exclude : ℕ) (tol : ℚ) : List ℕ :=
  (List.range' 1 tot).filter (fun nid =>
    if nid = exclude then false
    else
      match nodes nid with
      | none => false
      | some p => decide (|p.2.1 - y_ref| ≤ tol))

/-- The inline master scan of create_beam_link_cluster_YZ (link_cluster.py
 lines 153-164): same shape as _masters_same_y but on the X coordinate. -/
def _masters_same_x (tot : ℕ) (nodes : ℕ → Option Point3) (x_ref : ℚ)
    (exclude : ℕ) (tol : ℚ) : List ℕ :=
  (List.range' 1 tot).filter (fun nid =>
    if nid = exclude then false
    else
      match nodes nid with
      | none => false
      | some p => decide (|p.1 - x_ref| ≤ tol))

/-- create_beam_link_cluster_YZ (link_cluster.py lines 137-184): read the
 slave X, scan for masters with the same X within tol, fail when the master
 set is empty, else report slave, reference X and master count. -/
def create_beam_link_cluster_YZ (tot : ℕ) (nodes : ℕ → Option Point3)
    (slave_node_id : ℕ) (tol : ℚ) : Except String (ℕ × ℚ × ℕ) :=
  match nodes slave_node_id with
  | none => Except.error "GetNodeXYZ slave"
  | some p =>
      let x_ref := p.1
      let masters := _masters_same_x tot nodes x_ref slave_node_id tol
      if masters.isEmpty then
        Except.error "Nessun nodo con stessa X dello slave nel tol."
      else Except.ok (slave_node_id, x_ref, masters.length)

/-- create_beam_link_cluster_YZ with its default tolerance argument
 tol = 1e-3 (link_cluster.py line 137). -/
def create_beam_link_cluster_YZ_default (tot : ℕ) (nodes : ℕ → Option Point3)
    (slave_node_id : ℕ) : Except String (ℕ × ℚ × ℕ) :=
  create_beam_link_cluster_YZ tot nodes slave_node_id (1e-3 : ℚ)

/-- create_column_clusters_XZ (link_cluster.py lines 54-105): require 3 node
 ids, read their coordinates, pick the nodes of maximal and minimal Y (first
 winner on ties, as the Python max/min builtins), create the Y-max cluster,
 failing when its master set is empty, then the Y-min cluster likewise. -/
def create_column_clusters_XZ (tot : ℕ) (nodes : ℕ → Option Point3)
    (node_ids : List ℕ) (tol : ℚ) : Except String (List ClusterInfo) :=
  if node_ids.length < 3 then Except.error "Servono 3 nodi intermedi"
  else
    match node_ids.mapM (fun nid => (nodes nid).map (fun p => (nid, p))) with
    | none => Except.error "GetNodeXYZ"
    | some [] => Except.error "GetNodeXYZ"
    | some (c0 :: rest) =>
        let cmax := rest.foldl (fun best c => if best.2.2.1 < c.2.2.1 then c else best) c0
        let cmin := rest.foldl (fun best c => if c.2.2.1 < best.2.2.1 then c else best) c0
        let masters1 := _masters_same_y tot nodes cmax.2.2.1 cmax.1 tol
        if masters1.isEmpty then Except.error "Nessun master per cluster XZ (y max)"
        else
          let masters2 := _masters_same_y tot nodes cmin.2.2.1 cmin.1 tol
          if masters2.isEmpty then Except.error "Nessun master per cluster XZ (y min)"
          else Except.ok [⟨cmax.1, masters1⟩, ⟨cmin.1, masters2⟩]

/-- create_column_clusters_XZ with its default tolerance argument
 tol = 1e-6 (link_cluster.py line 56). -/
def create_column_clusters_XZ_default (tot : ℕ) (nodes : ℕ → Option Point3)
    (node_ids : List ℕ) : Except String (List ClusterInfo) :=
  create_column_clusters_XZ tot nodes node_ids (1e-6 : ℚ)

/-- The Step 26 rigid-links block of main.py (lines 585-605): the cluster
 creation call is wrapped in try/except, so a failure only prints an error
 and the synthesis run continues with no clusters from this step. -/
def step26_rigid_links (tot : ℕ) (nodes : ℕ → Option Point3)
    (node_ids : List ℕ) (tol : ℚ) : Option (List ClusterInfo) :=
  match create_column_clusters_XZ tot nodes node_ids tol with
  | Except.ok cs => some cs
  | Except.error _ => none

/-- Shared helper: membership in the Y master scan. -/
lemma mem_masters_same_y (tot : ℕ) (nodes : ℕ → Option Point3) (y_ref : ℚ)
    (exclude : ℕ) (tol : ℚ) (nid : ℕ) :
    nid ∈ _masters_same_y tot nodes y_ref exclude tol ↔
      (1 ≤ nid ∧ nid ≤ tot ∧ nid ≠ exclude ∧
        ∃ p : Point3, nodes nid = some p ∧ |p.2.1 - y_ref| ≤ tol) := by
  rw [_masters_same_y, List.mem_filter, List.mem_range'_1]
  constructor
  · rintro ⟨hr, hp⟩
    by_cases he : nid = exclude
    · rw [if_pos he] at hp; cases hp
    · rw [if_neg he] at hp
      cases hn : nodes nid with
      | none => rw [hn] at hp; cases hp
      | some p =>
          rw [hn] at hp
          exact ⟨hr.1, by omega, he, p, rfl, of_decide_eq_true hp⟩
  · rintro ⟨h1, h2, he, p, hp, habs⟩
    refine ⟨⟨h1, by omega⟩, ?_⟩
    rw [if_neg he, hp]
    exact decide_eq_true habs

/-- Shared helper: membership in the X master scan. -/
lemma mem_masters_same_x (tot : ℕ) (nodes : ℕ → Option Point3) (x_ref : ℚ)
    (exclude : ℕ) (tol : ℚ) (nid : ℕ) :
    nid ∈ _masters_same_x tot nodes x_ref exclude tol ↔
      (1 ≤ nid ∧ nid ≤ tot ∧ nid ≠ exclude ∧
        ∃ p : Point3, nodes nid = some p ∧ |p.1 - x_ref| ≤ tol) := by
  rw [_masters_same_x, List.mem_filter, List.mem_range'_1]
  constructor
  · rintro ⟨hr, hp⟩
    by_cases he : nid = exclude
    · rw [if_pos he] at hp; cases hp
    · rw [if_neg he] at hp
      cases hn : nodes nid with
      | none => rw [hn] at hp; cases hp
      | some p =>
          rw [hn] at hp
          exact ⟨hr.1, by omega, he, p, rfl, of_decide_eq_true hp⟩
  · rintro ⟨h1, h2, he, p, hp, habs⟩
    refine ⟨⟨h1, by omega⟩, ?_⟩
    rw [if_neg he, hp]
    exact decide_eq_true habs

/-- C5: for every node population and slave, the master scans return exactly
 the node ids in the population, other than the slave, whose matched-axis
 coordinate (Y for the column scan, X for the beam scan) lies within tol of
 the reference coordinate; in particular the slave is never in its own
 master set. -/
theorem C5_master_set_exact (tot : ℕ) (nodes : ℕ → Option Point3)
    (y_ref x_ref : ℚ) (slave : ℕ) (tol : ℚ) :
    (∀ nid : ℕ, nid ∈ _masters_same_y tot nodes y_ref slave tol ↔
      (1 ≤ nid ∧ nid ≤ tot ∧ nid ≠ slave ∧
        ∃ p : Point3, nodes nid = some p ∧ |p.2.1 - y_ref| ≤ tol)) ∧
    (∀ nid : ℕ, nid ∈ _masters_same_x tot nodes x_ref slave tol ↔
      (1 ≤ nid ∧ nid ≤ tot ∧ nid ≠ slave ∧
        ∃ p : Point3, nodes nid = some p ∧ |p.1 - x_ref| ≤ tol)) ∧
    slave ∉ _masters_same_y tot nodes y_ref slave tol ∧
    slave ∉ _masters_same_x tot nodes x_ref slave tol := by
  refine ⟨fun nid => mem_masters_same_y tot nodes y_ref slave tol nid,
    fun nid => mem_masters_same_x tot nodes x_ref slave tol nid, ?_, ?_⟩
  · intro h
    exact ((mem_masters_same_y tot nodes y_ref slave tol slave).mp h).2.2.1 rfl
  · intro h
    exact ((mem_masters_same_x tot nodes x_ref slave tol slave).mp h).2.2.1 rfl

/-- C10: when the tolerance argument is omitted, the beam-plane classifier
 uses 1e-3 = 1/1000 and the column-plane classifier uses 1e-6 = 1/1000000;
 the two defaults differ by a factor of exactly 1000. -/
theorem C10_default_tolerances :
    (∀ (tot : ℕ) (nodes : ℕ → Option Point3) (slave : ℕ),
      create_beam_link_cluster_YZ_default tot nodes slave =
        create_beam_link_cluster_YZ tot nodes slave (1 / 1000)) ∧
    (∀ (tot : ℕ) (nodes : ℕ → Option Point3) (ids : List ℕ),
      create_column_clusters_XZ_default tot nodes ids =
        create_column_clusters_XZ tot nodes ids (1 / 1000000)) ∧
    (1 / 1000 : ℚ) = 1000 * (1 / 1000000) := by
  have h3 : (1e-3 : ℚ) = 1 / 1000 := by norm_num
  have h6 : (1e-6 : ℚ) = 1 / 1000000 := by norm_num
  refine ⟨?_, ?_, by norm_num⟩
  · intro tot nodes slave
    rw [create_beam_link_cluster_YZ_default, h3]
  · intro tot nodes ids
    rw [create_column_clusters_XZ_default, h6]

/-- A concrete four-node population for C3: nodes 1 and 4 share Y = 0,
 node 2 at Y = 5, node 3 isolated at Y = 10. -/
def nodes_example : ℕ → Option Point3 :=
  fun nid =>
    match nid with
    | 1 => some (0, 0, 0)
    | 2 => some (0, 5, 0)
    | 3 => some (0, 10, 0)
    | 4 => some (0, 0, 0)
    | _ => none

/-- Shared helper: the Y-max master scan of the example population is empty. -/
lemma masters_example_ymax :
    _masters_same_y 4 nodes_example 10 3 (1e-6) = [] := by
  have hr : List.range' 1 4 = [1, 2, 3, 4] := by decide
  rw [_masters_same_y, hr]
  norm_num [List.filter_cons, nodes_example]

/-- Shared helper: the Y-min master scan of the example population is [4]. -/
lemma masters_example_ymin :
    _masters_same_y 4 nodes_example 0 1 (1e-6) = [4] := by
  have hr : List.range' 1 4 = [1, 2, 3, 4] := by decide
  rw [_masters_same_y, hr]
  norm_num [List.filter_cons, nodes_example]

/-- C3 counterexample: on the example population the Y-max cluster has no
 master, so the whole rigid-links call fails; the remaining Y-min cluster is
 not created even though its master set [4] is non-empty, and the caller
 swallows the failure, ending the step with no clusters at all. -/
theorem C3_counterexample :
    create_column_clusters_XZ 4 nodes_example [1, 2, 3] (1e-6) =
        Except.error "Nessun master per cluster XZ (y max)" ∧
    _masters_same_y 4 nodes_example 0 1 (1e-6) ≠ [] ∧
    step26_rigid_links 4 nodes_example [1, 2, 3] (1e-6) = none := by
  have hmap : ([1, 2, 3] : List ℕ).mapM
      (fun nid => (nodes_example nid).map (fun p => (nid, p))) =
      some [(1, ((0 : ℚ), (0 : ℚ), (0 : ℚ))), (2, (0, 5, 0)), (3, (0, 10, 0))] := rfl
  have hfold : ([(2, ((0 : ℚ), (5 : ℚ), (0 : ℚ))), (3, (0, 10, 0))].foldl
      (fun (best c : ℕ × Point3) => if best.2.2.1 < c.2.2.1 then c else best)
      (1, ((0 : ℚ), (0 : ℚ), (0 : ℚ)))) = (3, (0, 10, 0)) := by
    norm_num [List.foldl]
  have hcreate : create_column_clusters_XZ 4 nodes_example [1, 2, 3] (1e-6) =
      Except.error "Nessun master per cluster XZ (y max)" := by
    rw [create_column_clusters_XZ, if_neg (by norm_num), hmap]
    simp only [hfold, masters_example_ymax]
    rfl
  refine ⟨hcreate, ?_, ?_⟩
  · rw [masters_example_ymin]
    simp
  · rw [step26_rigid_links, hcreate]

/-- C3 amended: an EmptyMasterSet failure inside create_column_clusters_XZ
 aborts the whole rigid-links call (no cluster list is produced, so the
 remaining clusters of the run are not created either); the Step 26 caller
 catches the failure, so the overall synthesis continues, receiving the two
 clusters on success and none at all on failure. -/
theorem C3_amended (tot : ℕ) (nodes : ℕ → Option Point3) (ids : List ℕ)
    (tol : ℚ) :
    (∃ cs, create_column_clusters_XZ tot nodes ids tol = Except.ok cs ∧
        step26_rigid_links tot nodes ids tol = some cs) ∨
    (∃ e, create_column_clusters_XZ tot nodes ids tol = Except.error e ∧
        step26_rigid_links tot nodes ids tol = none) := by
  cases h : create_column_clusters_XZ tot nodes ids tol with
  | error e =>
      right
      exact ⟨e, rfl, by rw [step26_rigid_links, h]⟩
  | ok cs =>
      left
      exact ⟨cs, rfl, by rw [step26_rigid_links, h]⟩

/-! ## plate_sections.py : the local frame of build_I_section_between -/

/-- A 3-D vector with real components, for the Local Frame Builder. -/
abbrev Vec3 := ℝ × ℝ × ℝ

noncomputable section

/-- _dot (plate_sections.py lines 25-26). -/
def _dot (a b : Vec3) : ℝ := a.1 * b.1 + a.2.1 * b.2.1 + a.2.2 * b.2.2

/-- _cross (plate_sections.py lines 28-29). -/
def _cross (a b : Vec3) : Vec3 :=
  (a.2.1 * b.2.2 - a.2.2 * b.2.1, a.2.2 * b.1 - a.1 * b.2.2, a.1 * b.2.1 - a.2.1 * b.1)

/-- The euclidean norm computed inside _unit (plate_sections.py line 20). -/
def vnorm (v : Vec3) : ℝ := Real.sqrt (v.1 * v.1 + v.2.1 * v.2.1 + v.2.2 * v.2.2)

/-- _unit (plate_sections.py lines 19-23): normalize, failing on the zero
 vector (the source raises ValueError there). -/
def _unit (v : Vec3) : Option Vec3 :=
  if vnorm v = 0 then none
  else some (v.1 / vnorm v, v.2.1 / vnorm v, v.2.2 / vnorm v)

/-- The local frame construction of build_I_section_between
 (plate_sections.py lines 98-104): ex along the segment, up reference global
 Z unless nearly parallel to ex (threshold 0.95) in which case global X,
 ey = unit(zref x ex), ez = unit(ex x ey). -/
def build_I_section_local_frame (p1 p2 : Vec3) : Option (Vec3 × Vec3 × Vec3) :=
  match _unit (p2.1 - p1.1, p2.2.1 - p1.2.1, p2.2.2 - p1.2.2) with
  | none => none
  | some ex =>
      let zref : Vec3 := if |_dot ex ((0 : ℝ), 0, 1)| > 0.95 then (1, 0, 0) else (0, 0, 1)
      match _unit (_cross zref ex) with
      | none => none
      | some ey =>
          match _unit (_cross ex ey) with
          | none => none
          | some ez => some (ex, ey, ez)

end

/-- Shared helper: a dot square is nonnegative. -/
lemma dot_self_nonneg (v : Vec3) : 0 ≤ _dot v v := by
  obtain ⟨x, y, z⟩ := v
  simp only [_dot]
  nlinarith [sq_nonneg x, sq_nonneg y, sq_nonneg z]

lemma vnorm_eq_sqrt_dot (v : Vec3) : vnorm v = Real.sqrt (_dot v v) := rfl

lemma vnorm_ne_zero_of_dot_pos (v : Vec3) (h : 0 < _dot v v) : vnorm v ≠ 0 := by
  rw [vnorm_eq_sqrt_dot]
  exact ne_of_gt (Real.sqrt_pos.mpr h)

lemma unit_of_dot_pos (v : Vec3) (h : 0 < _dot v v) :
    _unit v = some (v.1 / vnorm v, v.2.1 / vnorm v, v.2.2 / vnorm v) := by
  rw [_unit, if_neg (vnorm_ne_zero_of_dot_pos v h)]

lemma unit_spec (v u : Vec3) (hu : _unit v = some u) :
    0 < vnorm v ∧ vnorm v * vnorm v = _dot v v ∧
      u = (v.1 / vnorm v, v.2.1 / vnorm v, v.2.2 / vnorm v) := by
  rw [_unit] at hu
  split at hu
  · cases hu
  · rename_i hne
    refine ⟨lt_of_le_of_ne (Real.sqrt_nonneg _) (Ne.symm hne), ?_, ?_⟩
    · rw [vnorm_eq_sqrt_dot]
      exact Real.mul_self_sqrt (dot_self_nonneg v)
    · injection hu with h
      exact h.symm

lemma unit_dot_self (v u : Vec3) (hu : _unit v = some u) : _dot u u = 1 := by
  obtain ⟨hn, hnn, hueq⟩ := unit_spec v u hu
  subst hueq
  have hne : vnorm v ≠ 0 := ne_of_gt hn
  simp only [_dot] at hnn ⊢
  field_simp
  linarith [hnn]

lemma dot_unit_right (v u w : Vec3) (hu : _unit v = some u) :
    _dot w u = _dot w v / vnorm v := by
  obtain ⟨hn, hnn, hueq⟩ := unit_spec v u hu
  subst hueq
  have hne : vnorm v ≠ 0 := ne_of_gt hn
  simp only [_dot]
  field_simp

lemma dot_cross_left (a b : Vec3) : _dot a (_cross a b) = 0 := by
  obtain ⟨a1, a2, a3⟩ := a
  obtain ⟨b1, b2, b3⟩ := b
  simp only [_dot, _cross]
  ring

lemma dot_cross_right (a b : Vec3) : _dot b (_cross a b) = 0 := by
  obtain ⟨a1, a2, a3⟩ := a
  obtain ⟨b1, b2, b3⟩ := b
  simp only [_dot, _cross]
  ring

lemma dot_cross_lagrange (a b : Vec3) :
    _dot (_cross a b) (_cross a b) = _dot a a * _dot b b - _dot a b * _dot a b := by
  obtain ⟨a1, a2, a3⟩ := a
  obtain ⟨b1, b2, b3⟩ := b
  simp only [_dot, _cross]
  ring

lemma dot_zhat (a : Vec3) : _dot a ((0 : ℝ), 0, 1) = a.2.2 := by
  simp [_dot]

lemma sum_sq_pos_of_ne (x y z : ℝ) (h : ¬(x = 0 ∧ y = 0 ∧ z = 0)) :
    0 < x * x + y * y + z * z := by
  rcases (by tauto : x ≠ 0 ∨ y ≠ 0 ∨ z ≠ 0) with hx | hy | hz
  · nlinarith [mul_self_pos.mpr hx, sq_nonneg y, sq_nonneg z]
  · nlinarith [mul_self_pos.mpr hy, sq_nonneg x, sq_nonneg z]
  · nlinarith [mul_self_pos.mpr hz, sq_nonneg x, sq_nonneg y]

/-- C9: for every pair of distinct anchor points, the Local Frame Builder
 succeeds and returns three mutually orthogonal unit vectors (pairwise dot
 products 0, each of unit squared norm), with ex the normalized direction
 P1 - P0, the up reference chosen as global Z unless nearly parallel to ex
 (then global X), ey = unit(zref x ex) and ez = unit(ex x ey). -/
theorem C9_local_frame (p1 p2 : Vec3) (h : p1 ≠ p2) :
    ∃ ex ey ez : Vec3,
      build_I_section_local_frame p1 p2 = some (ex, ey, ez) ∧
      _unit (p2.1 - p1.1, p2.2.1 - p1.2.1, p2.2.2 - p1.2.2) = some ex ∧
      _unit (_cross (if |_dot ex ((0 : ℝ), 0, 1)| > 0.95 then ((1 : ℝ), 0, 0)
          else ((0 : ℝ), 0, 1)) ex) = some ey ∧
      _unit (_cross ex ey) = some ez ∧
      _dot ex ex = 1 ∧ _dot ey ey = 1 ∧ _dot ez ez = 1 ∧
      _dot ex ey = 0 ∧ _dot ex ez = 0 ∧ _dot ey ez = 0 := by
  -- the direction vector is non-degenerate
  have hdne : ¬(p2.1 - p1.1 = 0 ∧ p2.2.1 - p1.2.1 = 0 ∧ p2.2.2 - p1.2.2 = 0) := by
    rintro ⟨h1, h2, h3⟩
    apply h
    obtain ⟨a1, a2, a3⟩ := p1
    obtain ⟨b1, b2, b3⟩ := p2
    simp only [Prod.mk.injEq] at h1 h2 h3 ⊢
    refine ⟨by linarith, by linarith, by linarith⟩
  set d : Vec3 := (p2.1 - p1.1, p2.2.1 - p1.2.1, p2.2.2 - p1.2.2) with hd
  have hdd : 0 < _dot d d := by
    rw [hd]
    simpa [_dot] using sum_sq_pos_of_ne _ _ _ hdne
  -- ex
  set ex : Vec3 := (d.1 / vnorm d, d.2.1 / vnorm d, d.2.2 / vnorm d) with hex
  have hexu : _unit d = some ex := unit_of_dot_pos d hdd
  have hex1 : _dot ex ex = 1 := unit_dot_self d ex hexu
  have hexcomp : ex.1 * ex.1 + ex.2.1 * ex.2.1 + ex.2.2 * ex.2.2 = 1 := by
    simpa [_dot] using hex1
  -- the chosen up reference and the cross product with ex
  by_cases hc : |_dot ex ((0 : ℝ), 0, 1)| > 0.95
  · -- nearly parallel to Z: fall back to global X
    have habs : (0.95 : ℝ) < |ex.2.2| := by rwa [dot_zhat] at hc
    have hcr : _cross ((1 : ℝ), 0, 0) ex = (0, -ex.2.2, ex.2.1) := by
      simp [_cross]
    have hccpos : 0 < _dot (_cross ((1 : ℝ), 0, 0) ex) (_cross ((1 : ℝ), 0, 0) ex) := by
      rw [hcr]
      have h2 : 0.95 * 0.95 < ex.2.2 * ex.2.2 := by
        have := mul_self_lt_mul_self (by norm_num : (0 : ℝ) ≤ 0.95) habs
        rwa [abs_mul_abs_self] at this
      simp only [_dot]
      nlinarith [sq_nonneg ex.2.1]
    set c : Vec3 := _cross ((1 : ℝ), 0, 0) ex with hcdef
    set ey : Vec3 := (c.1 / vnorm c, c.2.1 / vnorm c, c.2.2 / vnorm c) with hey
    have heyu : _unit c = some ey := unit_of_dot_pos c hccpos
    have hey1 : _dot ey ey = 1 := unit_dot_self c ey heyu
    have hxy : _dot ex ey = 0 := by
      rw [dot_unit_right c ey ex heyu, hcdef, dot_cross_right]
      simp
    -- ez
    set e : Vec3 := _cross ex ey with hedef
    have hee : _dot e e = 1 := by
      rw [hedef, dot_cross_lagrange, hex1, hey1, hxy]
      norm_num
    have heepos : 0 < _dot e e := by rw [hee]; norm_num
    set ez : Vec3 := (e.1 / vnorm e, e.2.1 / vnorm e, e.2.2 / vnorm e) with hez
    have hezu : _unit e = some ez := unit_of_dot_pos e heepos
    have hez1 : _dot ez ez = 1 := unit_dot_self e ez hezu
    have hxz : _dot ex ez = 0 := by
      rw [dot_unit_right e ez ex hezu, hedef, dot_cross_left]
      simp
    have hyz : _dot ey ez = 0 := by
      rw [dot_unit_right e ez ey hezu, hedef, dot_cross_right]
      simp
    refine ⟨ex, ey, ez, ?_, hexu, ?_, hezu, hex1, hey1, hez1, hxy, hxz, hyz⟩
    · rw [build_I_section_local_frame]
      rw [← hd, hexu]
      simp only
      rw [if_pos hc, ← hcdef, heyu]
      simp only
      rw [← hedef, hezu]
    · rw [if_pos hc, ← hcdef]
      exact heyu
  · -- default up reference: global Z
    have habs : |ex.2.2| ≤ 0.95 := by
      rw [dot_zhat] at hc
      exact not_lt.mp hc
    have hcr : _cross ((0 : ℝ), 0, 1) ex = (-ex.2.1, ex.1, 0) := by
      simp [_cross]
    have hccpos : 0 < _dot (_cross ((0 : ℝ), 0, 1) ex) (_cross ((0 : ℝ), 0, 1) ex) := by
      rw [hcr]
      have h2 : ex.2.2 * ex.2.2 ≤ 0.95 * 0.95 := by
        have := mul_self_le_mul_self (abs_nonneg ex.2.2) habs
        rwa [abs_mul_abs_self] at this
      simp only [_dot]
      nlinarith
    set c : Vec3 := _cross ((0 : ℝ), 0, 1) ex with hcdef
    set ey : Vec3 := (c.1 / vnorm c, c.2.1 / vnorm c, c.2.2 / vnorm c) with hey
    have heyu : _unit c = some ey := unit_of_dot_pos c hccpos
    have hey1 : _dot ey ey = 1 := unit_dot_self c ey heyu
    have hxy : _dot ex ey = 0 := by
      rw [dot_unit_right c ey ex heyu, hcdef, dot_cross_right]
      simp
    set e : Vec3 := _cross ex ey with hedef
    have hee : _dot e e = 1 := by
      rw [hedef, dot_cross_lagrange, hex1, hey1, hxy]
      norm_num
    have heepos : 0 < _dot e e := by rw [hee]; norm_num
    set ez : Vec3 := (e.1 / vnorm e, e.2.1 / vnorm e, e.2.2 / vnorm e) with hez
    have hezu : _unit e = some ez := unit_of_dot_pos e heepos
    have hez1 : _dot ez ez = 1 := unit_dot_self e ez hezu
    have hxz : _dot ex ez = 0 := by
      rw [dot_unit_right e ez ex hezu, hedef, dot_cross_left]
      simp
    have hyz : _dot ey ez = 0 := by
      rw [dot_unit_right e ez ey hezu, hedef, dot_cross_right]
      simp
    refine ⟨ex, ey, ez, ?_, hexu, ?_, hezu, hex1, hey1, hez1, hxy, hxz, hyz⟩
    · rw [build_I_section_local_frame]
      rw [← hd, hexu]
      simp only
      rw [if_neg hc, ← hcdef, heyu]
      simp only
      rw [← hedef, hezu]
    · rw [if_neg hc, ← hcdef]
      exact heyu

/-- Witness for C9 at the concrete anchors (0,0,0) and (1,0,0). -/
theorem C9_local_frame_witness :
    ∃ ex ey ez : Vec3,
      build_I_section_local_frame ((0 : ℝ), 0, 0) ((1 : ℝ), 0, 0) = some (ex, ey, ez) ∧
      _unit (((1 : ℝ), 0, 0).1 - ((0 : ℝ), 0, 0).1, ((1 : ℝ), 0, 0).2.1 - ((0 : ℝ), 0, 0).2.1,
        ((1 : ℝ), 0, 0).2.2 - ((0 : ℝ), 0, 0).2.2) = some ex ∧
      _unit (_cross (if |_dot ex ((0 : ℝ), 0, 1)| > 0.95 then ((1 : ℝ), 0, 0)
          else ((0 : ℝ), 0, 1)) ex) = some ey ∧
      _unit (_cross ex ey) = some ez ∧
      _dot ex ex = 1 ∧ _dot ey ey = 1 ∧ _dot ez ez = 1 ∧
      _dot ex ey = 0 ∧ _dot ex ez = 0 ∧ _dot ey ez = 0 :=
  C9_local_frame ((0 : ℝ), 0, 0) ((1 : ℝ), 0, 0)
    (by
      intro hc
      have h1 : (0 : ℝ) = 1 := congrArg Prod.fst hc
      norm_num at h1)
